import Mathlib

/-!
Shallow embedding of the prediction engine of `src/app/services/stockApi.ts`
(class `EnhancedStockApiService`).  JavaScript numbers are modelled as elements
of a linear ordered field (instantiated at `ℝ` for the engine, whose time-decay
and volatility terms need `Real.exp` / `Real.sqrt`, and at `ℚ` for concrete
evaluation).  Division by zero is total (`x / 0 = 0`) in this model, where
JavaScript would produce `NaN`/`Infinity`; every place a claim depends on such a
division is called out explicitly via `stochasticRange`.
-/

namespace StockApi

/-- One historical OHLCV sample (`HistoricalData` in `stockApi.ts`). -/
structure Bar (α : Type*) where
  timestamp : ℤ
  open' : α
  high : α
  low : α
  close : α
  volume : α

/-- Trend label of a prediction (`'bullish' | 'bearish' | 'neutral'`). -/
inductive Trend
  | bullish
  | bearish
  | neutral
  deriving DecidableEq

/-- Direction tag of a candlestick pattern. -/
inductive PatternType
  | bullish
  | bearish
  | neutral
  deriving DecidableEq

/-- A pattern finding of `identifyPatterns`. -/
structure Pattern (α : Type*) where
  name : String
  type : PatternType
  strength : α

/-- Result record of `calculateMACD`. -/
structure MacdValue (α : Type*) where
  macd : α
  signal : α
  histogram : α
  deriving DecidableEq

/-- Result record of `calculateStochastic`. -/
structure Stoch (α : Type*) where
  k : α
  d : α
  deriving DecidableEq

/-- Result record of `findSupportResistanceLevels`. -/
structure SRLevels (α : Type*) where
  support : List α
  resistance : List α
  deriving DecidableEq

/-- Result record of `calculateAdvancedPrediction`. -/
structure PredictionResult where
  predictedPrice : ℝ
  confidence : ℝ
  trend : Trend
  signals : List String

variable {α : Type*} [LinearOrderedField α]

/-- `calculateSMA` (lines 438-441): arithmetic mean, `0` on the empty list. -/
def calculateSMA (prices : List α) : α :=
  if prices.length = 0 then 0 else prices.sum / (prices.length : α)

/-- `calculateEMA` (lines 443-454): seeded with the first element, smoothed with
multiplier `2/(period+1)` across the whole list; last element (or `0`) when the
list is shorter than `period`. -/
def calculateEMA (prices : List α) (period : ℕ) : α :=
  if prices.length < period then prices.getLast?.getD 0
  else
    match prices with
    | [] => 0
    | p :: rest =>
      let m : α := 2 / ((period : α) + 1)
      rest.foldl (fun ema q => q * m + ema * (1 - m)) p

/-- The consecutive differences `prices[i] - prices[i-1]` (RSI loop, lines 462-466). -/
def diffs (prices : List α) : List α :=
  (prices.zip prices.tail).map fun pq => pq.2 - pq.1

/-- The `gains` array of `calculateRSI`. -/
def rsiGains (prices : List α) : List α :=
  (diffs prices).map fun c => if c > 0 then c else 0

/-- The `losses` array of `calculateRSI`. -/
def rsiLosses (prices : List α) : List α :=
  (diffs prices).map fun c => if c < 0 then |c| else 0

/-- `avgGain` of `calculateRSI` (line 468): mean over the trailing `period` gains. -/
def rsiAvgGain (prices : List α) (period : ℕ) : α :=
  ((rsiGains prices).drop ((rsiGains prices).length - period)).sum / (period : α)

/-- `avgLoss` of `calculateRSI` (line 469): mean over the trailing `period` losses. -/
def rsiAvgLoss (prices : List α) (period : ℕ) : α :=
  ((rsiLosses prices).drop ((rsiLosses prices).length - period)).sum / (period : α)

/-- `calculateRSI` (lines 456-474). -/
def calculateRSI (prices : List α) (period : ℕ := 14) : α :=
  if prices.length < period + 1 then 50
  else if rsiAvgLoss prices period = 0 then 100
  else 100 - 100 / (1 + rsiAvgGain prices period / rsiAvgLoss prices period)

/-- The `macdValues` array of `calculateMACD` (lines 482-488): MACD re-derived on
every leading slice from index 26 onward. -/
def macdValues (prices : List α) : List α :=
  (List.range' 26 (prices.length - 26)).map fun i =>
    calculateEMA (prices.take (i + 1)) 12 - calculateEMA (prices.take (i + 1)) 26

/-- `calculateMACD` (lines 476-494). -/
def calculateMACD (prices : List α) : MacdValue α :=
  let macd := calculateEMA prices 12 - calculateEMA prices 26
  let signal := calculateEMA (macdValues prices) 9
  { macd := macd, signal := signal, histogram := macd - signal }

/-- `Math.max(...arr)` over a list (`0` on the empty list, unreachable in the code). -/
def listMax : List α → α
  | [] => 0
  | x :: xs => xs.foldl max x

/-- `Math.min(...arr)` over a list (`0` on the empty list, unreachable in the code). -/
def listMin : List α → α
  | [] => 0
  | x :: xs => xs.foldl min x

/-- The divisor `highestHigh - lowestLow` of the `%K` division in
`calculateStochastic` (line 518). -/
def stochasticRange (highs lows : List α) (period : ℕ) : α :=
  listMax (highs.drop (highs.length - period)) - listMin (lows.drop (lows.length - period))

/-- The `kValues` array of `calculateStochastic` (lines 521-531). -/
def stochasticKValues (highs lows closes : List α) (period : ℕ) : List α :=
  (List.range' (period - 1) (closes.length - (period - 1))).map fun i =>
    let sliceHighs := (highs.take (i + 1)).drop (i + 1 - period)
    let sliceLows := (lows.take (i + 1)).drop (i + 1 - period)
    ((closes.getD i 0 - listMin sliceLows) / (listMax sliceHighs - listMin sliceLows)) * 100

/-- `calculateStochastic` (lines 508-536). -/
def calculateStochastic (highs lows closes : List α) (period : ℕ := 14) : Stoch α :=
  if highs.length < period then ⟨50, 50⟩
  else
    let currentClose := closes.getLast?.getD 0
    let lowestLow := listMin (lows.drop (lows.length - period))
    let k := ((currentClose - lowestLow) / stochasticRange highs lows period) * 100
    let kValues := stochasticKValues highs lows closes period
    let d := calculateSMA (kValues.drop (kValues.length - 3))
    ⟨k, d⟩

/-- The `returns` array of `calculateVolatility` (lines 541-544). -/
def returnsOf (prices : List α) : List α :=
  (prices.zip prices.tail).map fun pq => (pq.2 - pq.1) / pq.1

/-- The `mean` of `calculateVolatility` (line 546). -/
def meanOf (l : List α) : α := l.sum / (l.length : α)

/-- The `variance` of `calculateVolatility` (line 547). -/
def varianceOf (l : List α) : α :=
  (l.map fun r => (r - meanOf l) ^ 2).sum / (l.length : α)

/-- `calculateVolatility` (lines 538-550). -/
noncomputable def calculateVolatility (prices : List ℝ) : ℝ :=
  if prices.length < 2 then 0.02
  else Real.sqrt (varianceOf (returnsOf prices))

/-- The local-minimum test of the support scan (lines 579-581); JavaScript
comparisons against out-of-bounds (`undefined`) entries are false, hence the
`Option` reads. -/
def isSupportHit (lows : List α) (i : ℕ) : Option α :=
  match lows[i]?, lows[i - 1]?, lows[i + 1]?, lows[i - 2]?, lows[i + 2]? with
  | some c, some p1, some n1, some p2, some n2 =>
    if c < p1 ∧ c < n1 ∧ c < p2 ∧ c < n2 then some c else none
  | _, _, _, _, _ => none

/-- The local-maximum test of the resistance scan (lines 585-587). -/
def isResistanceHit (highs : List α) (i : ℕ) : Option α :=
  match highs[i]?, highs[i - 1]?, highs[i + 1]?, highs[i - 2]?, highs[i + 2]? with
  | some c, some p1, some n1, some p2, some n2 =>
    if c > p1 ∧ c > n1 ∧ c > p2 ∧ c > n2 then some c else none
  | _, _, _, _, _ => none

/-- All support hits, in scan (chronological) order, before the trailing slice. -/
def supportPoints (lows prices : List α) : List α :=
  (List.range' 2 (prices.length - 4)).filterMap (isSupportHit lows)

/-- All resistance hits, in scan (chronological) order, before the trailing slice. -/
def resistancePoints (highs prices : List α) : List α :=
  (List.range' 2 (prices.length - 4)).filterMap (isResistanceHit highs)

/-- `findSupportResistanceLevels` (lines 572-592): loop over indices
`2 ≤ i < prices.length - 2`, then `slice(-3)` on each accumulated list. -/
def findSupportResistanceLevels (highs lows prices : List α) : SRLevels α :=
  let support := supportPoints lows prices
  let resistance := resistancePoints highs prices
  { support := support.drop (support.length - 3),
    resistance := resistance.drop (resistance.length - 3) }

/-- The all-zero bar used for (unreachable) out-of-bounds bar reads. -/
def defaultBar : Bar α := ⟨0, 0, 0, 0, 0, 0⟩

/-- `identifyPatterns` (lines 594-633).  The source also builds `prices`, `highs`
and `lows` arrays (lines 599-601) that it never reads; they are omitted. -/
def identifyPatterns (data : List (Bar α)) : List (Pattern α) :=
  if data.length < 10 then []
  else
    let lastCandle := data.getD (data.length - 1) defaultBar
    let bodySize := |lastCandle.close - lastCandle.open'|
    let lowerShadow := min lastCandle.open' lastCandle.close - lastCandle.low
    let upperShadow := lastCandle.high - max lastCandle.open' lastCandle.close
    let hammer : List (Pattern α) :=
      if lowerShadow > bodySize * 2 ∧ upperShadow < bodySize * (5 / 10) then
        [{ name := "Hammer", type := .bullish, strength := 15 / 100 }]
      else []
    let doji : List (Pattern α) :=
      if bodySize < (lastCandle.high - lastCandle.low) * (1 / 10) then
        [{ name := "Doji", type := .neutral, strength := 1 / 10 }]
      else []
    let engulfing : List (Pattern α) :=
      if 2 ≤ data.length then
        let prev := data.getD (data.length - 2) defaultBar
        let curr := data.getD (data.length - 1) defaultBar
        if prev.close < prev.open' ∧ curr.close > curr.open' ∧
            curr.close > prev.open' ∧ curr.open' < prev.close then
          [{ name := "Bullish Engulfing", type := .bullish, strength := 2 / 10 }]
        else if prev.close > prev.open' ∧ curr.close < curr.open' ∧
            curr.close < prev.open' ∧ curr.open' > prev.close then
          [{ name := "Bearish Engulfing", type := .bearish, strength := 2 / 10 }]
        else []
      else []
    hammer ++ doji ++ engulfing

/-- `Number(x.toFixed(2))`: rounding to two decimals, ties away from the floor
(ECMAScript picks the larger candidate, matching `round`). -/
noncomputable def toFixed2 (x : ℝ) : ℝ := (round (x * 100) : ℤ) / 100

/-- The `avgVolume` divisor of the `volumeRatio` division in
`calculateAdvancedPrediction` (lines 288-289): the SMA of the trailing 20
volumes.  When this is `0` and the `volume` argument is also `0` (for example a
50-bar history of zero-volume bars with the default `volume = 0`), the program
computes `volumeRatio = 0/0 = NaN`, which then propagates through
`Math.min`/`Math.max` (lines 403-409) into a `NaN` confidence; the total model
collapses that division to `0`. -/
def avgVolume20 (historicalData : List (Bar α)) : α :=
  calculateSMA ((historicalData.map Bar.volume).drop
    ((historicalData.map Bar.volume).length - 20))

/-- The sentiment accumulation of `calculateAdvancedPrediction` (lines 269-386):
indicator computation followed by the sequential score/signal updates.  Returns
the final `sentimentScore` together with the full signal list, in evaluation
order, before the `slice(0, 5)` truncation. -/
noncomputable def sentimentSignals (currentPrice : ℝ) (historicalData : List (Bar ℝ))
    (volume : ℝ) : ℝ × List String :=
  let prices := historicalData.map Bar.close
  let highs := historicalData.map Bar.high
  let lows := historicalData.map Bar.low
  let sma20 := calculateSMA (prices.drop (prices.length - 20))
  let sma50 := calculateSMA (prices.drop (prices.length - 50))
  let ema12 := calculateEMA prices 12
  let ema26 := calculateEMA prices 26
  let supportResistance := findSupportResistanceLevels highs lows prices
  let avgVolume := avgVolume20 historicalData
  let volumeRatio := volume / avgVolume
  let patterns := identifyPatterns (historicalData.drop (historicalData.length - 20))
  let rsi := calculateRSI prices 14
  let macd := calculateMACD prices
  let stochastic := calculateStochastic highs lows prices 14
  let s1 : ℝ :=
    if currentPrice > sma20 ∧ sma20 > sma50 then 0.3
    else if currentPrice < sma20 ∧ sma20 < sma50 then -0.3 else 0
  let g1 : List String :=
    if currentPrice > sma20 ∧ sma20 > sma50 then ["Bullish MA crossover"]
    else if currentPrice < sma20 ∧ sma20 < sma50 then ["Bearish MA crossover"] else []
  let s2 := s1 + if ema12 > ema26 then 0.2 else -0.2
  let g2 := g1 ++ [if ema12 > ema26 then "Bullish EMA trend" else "Bearish EMA trend"]
  let s3 := s2 + if rsi > 70 then -0.25 else if rsi < 30 then 0.25 else 0
  let g3 := g2 ++
    (if rsi > 70 then ["Overbought (RSI > 70)"]
     else if rsi < 30 then ["Oversold (RSI < 30)"] else [])
  let s4 := s3 +
    if macd.macd > macd.signal ∧ macd.histogram > 0 then 0.2
    else if macd.macd < macd.signal ∧ macd.histogram < 0 then -0.2 else 0
  let g4 := g3 ++
    (if macd.macd > macd.signal ∧ macd.histogram > 0 then ["Bullish MACD crossover"]
     else if macd.macd < macd.signal ∧ macd.histogram < 0 then ["Bearish MACD crossover"]
     else [])
  let s5 := s4 +
    if stochastic.k > 80 ∧ stochastic.d > 80 then -0.15
    else if stochastic.k < 20 ∧ stochastic.d < 20 then 0.15 else 0
  let g5 := g4 ++
    (if stochastic.k > 80 ∧ stochastic.d > 80 then ["Overbought (Stochastic)"]
     else if stochastic.k < 20 ∧ stochastic.d < 20 then ["Oversold (Stochastic)"] else [])
  let s6 := if volumeRatio > 1.5 then s5 * 1.2 else if volumeRatio < 0.5 then s5 * 0.8 else s5
  let g6 := g5 ++
    (if volumeRatio > 1.5 then ["High volume confirmation"]
     else if volumeRatio < 0.5 then ["Low volume warning"] else [])
  let nearSupport :=
    ∃ level ∈ supportResistance.support, |currentPrice - level| / currentPrice < 0.02
  let nearResistance :=
    ∃ level ∈ supportResistance.resistance, |currentPrice - level| / currentPrice < 0.02
  let s7 := s6 + if nearSupport then 0.1 else 0
  let g7 := g6 ++ if nearSupport then ["Near support level"] else []
  let s8 := s7 + if nearResistance then -0.1 else 0
  let g8 := g7 ++ if nearResistance then ["Near resistance level"] else []
  patterns.foldl
    (fun sg p =>
      match p.type with
      | .bullish => (sg.1 + p.strength, sg.2 ++ ["Bullish pattern: " ++ p.name])
      | .bearish => (sg.1 - p.strength, sg.2 ++ ["Bearish pattern: " ++ p.name])
      | .neutral => sg)
    (s8, g8)

/-- `calculateAdvancedPrediction` (lines 250-419).  `rand` stands for the one
`Math.random()` draw the executed path consumes.  The `indicators` record
(line 276) and `atr` (line 301) are computed but never read by the source;
both are omitted as dead code. -/
noncomputable def calculateAdvancedPrediction (rand : ℝ) (currentPrice : ℝ)
    (historicalData : List (Bar ℝ)) (volume : ℝ := 0) (marketCap : ℝ := 0)
    (timeHorizonMinutes : ℝ := 30) : PredictionResult :=
  if historicalData.length < 50 then
    let randomWalk := (rand - 0.5) * 0.02
    { predictedPrice := currentPrice * (1 + randomWalk)
      confidence := 0.3
      trend := if randomWalk > 0 then .bullish else .bearish
      signals := ["Insufficient historical data"] }
  else
    let prices := historicalData.map Bar.close
    let avgVolume := avgVolume20 historicalData
    let volumeRatio := volume / avgVolume
    let volatility := calculateVolatility (prices.drop (prices.length - 20))
    let ss := sentimentSignals currentPrice historicalData volume
    let sentimentScore := ss.1
    let timeDecay := Real.exp (-timeHorizonMinutes / 120)
    let marketCapFactor : ℝ := if marketCap > 1000000000 then 0.8 else 1.2
    let baseChange := sentimentScore * volatility * timeDecay * marketCapFactor
    let randomComponent := (rand - 0.5) * volatility * 0.2
    let totalChange := baseChange + randomComponent
    let predictedPrice := currentPrice * (1 + totalChange)
    let dataQuality := min 1 ((historicalData.length : ℝ) / 100)
    let volumeConfidence := min 1 volumeRatio
    let volatilityConfidence := 1 - min 1 (volatility * 10)
    let timeConfidence := timeDecay
    let confidence := min 0.95 (max 0.1
      ((dataQuality * 0.3 + volumeConfidence * 0.2 + volatilityConfidence * 0.3 +
        timeConfidence * 0.2) * 0.8 + 0.2))
    { predictedPrice := toFixed2 predictedPrice
      confidence := toFixed2 confidence
      trend :=
        if sentimentScore > 0.1 then .bullish
        else if sentimentScore < -0.1 then .bearish else .neutral
      signals := ss.2.take 5 }

/-- A degenerate bar with `open = high = low = close = c` and the given volume,
used as a concrete test fixture. -/
def flatBar (c v : α) : Bar α := ⟨0, c, c, c, c, v⟩

/-! ### Helper lemmas -/

lemma round_mono_real {a b : ℝ} (h : a ≤ b) : round a ≤ round b := by
  rw [round_eq, round_eq]
  exact Int.floor_mono (by linarith)

lemma toFixed2_clamp (x : ℝ) :
    0.1 ≤ toFixed2 (min 0.95 (max 0.1 x)) ∧ toFixed2 (min 0.95 (max 0.1 x)) ≤ 0.95 := by
  set y := min 0.95 (max 0.1 x) with hy
  have h1 : (0.1 : ℝ) ≤ y := le_min (by norm_num) (le_max_left _ _)
  have h2 : y ≤ 0.95 := min_le_left _ _
  have hlo : (10 : ℤ) ≤ round (y * 100) := by
    have h := round_mono_real (show ((10 : ℤ) : ℝ) ≤ y * 100 by push_cast; linarith)
    rwa [round_intCast] at h
  have hhi : round (y * 100) ≤ (95 : ℤ) := by
    have h := round_mono_real (show y * 100 ≤ ((95 : ℤ) : ℝ) by push_cast; linarith)
    rwa [round_intCast] at h
  have hloR : (10 : ℝ) ≤ ((round (y * 100) : ℤ) : ℝ) := by exact_mod_cast hlo
  have hhiR : ((round (y * 100) : ℤ) : ℝ) ≤ 95 := by exact_mod_cast hhi
  unfold toFixed2
  constructor <;> linarith

lemma calculateRSI_of_avgLoss_eq_zero (prices : List α) (period : ℕ)
    (hlen : period + 1 ≤ prices.length) (h0 : rsiAvgLoss prices period = 0) :
    calculateRSI prices period = 100 := by
  rw [calculateRSI, if_neg (not_lt.2 hlen), if_pos h0]

lemma rsiAvgLoss_eq_zero_of_no_losses (prices : List α) (period : ℕ)
    (hd : ∀ d ∈ (diffs prices).drop ((diffs prices).length - period), 0 ≤ d) :
    rsiAvgLoss prices period = 0 := by
  unfold rsiAvgLoss rsiLosses
  rw [List.length_map, ← List.map_drop, List.sum_eq_zero, zero_div]
  intro x hx
  obtain ⟨d, hdmem, rfl⟩ := List.mem_map.1 hx
  rw [if_neg (not_lt.2 (hd d hdmem))]

lemma listFoldlMax_const (m : ℕ) (x : α) : (List.replicate m x).foldl max x = x := by
  induction m with
  | zero => rfl
  | succ n ih => simpa [List.replicate_succ, max_self] using ih

lemma listFoldlMin_const (m : ℕ) (x : α) : (List.replicate m x).foldl min x = x := by
  induction m with
  | zero => rfl
  | succ n ih => simpa [List.replicate_succ, min_self] using ih

lemma listMax_replicate (n : ℕ) (x : α) : listMax (List.replicate (n + 1) x) = x := by
  rw [List.replicate_succ, listMax, listFoldlMax_const]

lemma listMin_replicate (n : ℕ) (x : α) : listMin (List.replicate (n + 1) x) = x := by
  rw [List.replicate_succ, listMin, listFoldlMin_const]

lemma getElem?_lt_of_pairwise {l : List α} (hp : l.Pairwise (· < ·)) {i j : ℕ}
    (hij : i < j) {a b : α} (ha : l[i]? = some a) (hb : l[j]? = some b) : a < b := by
  obtain ⟨hi, rfl⟩ := List.getElem?_eq_some.1 ha
  obtain ⟨hj, rfl⟩ := List.getElem?_eq_some.1 hb
  exact List.pairwise_iff_getElem.1 hp i j hi hj hij

lemma getElem?_le_of_pairwise {l : List α} (hp : l.Pairwise (· ≤ ·)) {i j : ℕ}
    (hij : i < j) {a b : α} (ha : l[i]? = some a) (hb : l[j]? = some b) : a ≤ b := by
  obtain ⟨hi, rfl⟩ := List.getElem?_eq_some.1 ha
  obtain ⟨hj, rfl⟩ := List.getElem?_eq_some.1 hb
  exact List.pairwise_iff_getElem.1 hp i j hi hj hij

lemma supportPoints_nil_of_monotone {lows prices : List α}
    (hlo : lows.Pairwise (· ≤ ·)) : supportPoints lows prices = [] := by
  unfold supportPoints
  rw [List.filterMap_eq_nil_iff]
  intro i hi
  obtain ⟨k, _, rfl⟩ := List.mem_range'.1 hi
  unfold isSupportHit
  rcases h0 : lows[2 + 1 * k]? with _ | c <;>
    rcases h1 : lows[2 + 1 * k - 1]? with _ | p1 <;>
    rcases h2 : lows[2 + 1 * k + 1]? with _ | n1 <;>
    rcases h3 : lows[2 + 1 * k - 2]? with _ | p2 <;>
    rcases h4 : lows[2 + 1 * k + 2]? with _ | n2 <;>
    simp only [h0, h1, h2, h3, h4] <;>
    exact if_neg fun hc =>
      absurd hc.1 (not_lt.2 (getElem?_le_of_pairwise hlo (by omega) h1 h0))

lemma resistancePoints_nil_of_monotone {highs prices : List α}
    (hhi : highs.Pairwise (· ≤ ·)) : resistancePoints highs prices = [] := by
  unfold resistancePoints
  rw [List.filterMap_eq_nil_iff]
  intro i hi
  obtain ⟨k, _, rfl⟩ := List.mem_range'.1 hi
  unfold isResistanceHit
  rcases h0 : highs[2 + 1 * k]? with _ | c <;>
    rcases h1 : highs[2 + 1 * k - 1]? with _ | p1 <;>
    rcases h2 : highs[2 + 1 * k + 1]? with _ | n1 <;>
    rcases h3 : highs[2 + 1 * k - 2]? with _ | p2 <;>
    rcases h4 : highs[2 + 1 * k + 2]? with _ | n2 <;>
    simp only [h0, h1, h2, h3, h4] <;>
    exact if_neg fun hc =>
      absurd hc.2.1 (not_lt.2 (getElem?_le_of_pairwise hhi (by omega) h0 h2))

lemma returnsOf_cons₂ (a b : α) (l : List α) :
    returnsOf (a :: b :: l) = (b - a) / a :: returnsOf (b :: l) := by
  simp [returnsOf]

lemma returns_const_of_chain {q : α} :
    ∀ {l : List α}, l.Chain' (fun a b => b = q * a) → (∀ x ∈ l, x ≠ 0) →
      ∀ r ∈ returnsOf l, r = q - 1
  | [] => by simp [returnsOf]
  | [a] => by simp [returnsOf]
  | a :: b :: t => by
    intro hch hnz r hr
    rw [returnsOf_cons₂] at hr
    rcases List.mem_cons.1 hr with h | h
    · subst h
      have hb : b = q * a := (List.chain'_cons.1 hch).1
      have ha : a ≠ 0 := hnz a (by simp)
      rw [hb]
      field_simp
      ring
    · exact returns_const_of_chain (List.chain'_cons.1 hch).2
        (fun x hx => hnz x (List.mem_cons_of_mem _ hx)) r h

lemma meanOf_replicate (n : ℕ) (c : α) (hn : n ≠ 0) : meanOf (List.replicate n c) = c := by
  unfold meanOf
  rw [List.sum_replicate, List.length_replicate, nsmul_eq_mul]
  have : (n : α) ≠ 0 := Nat.cast_ne_zero.2 hn
  field_simp

lemma varianceOf_replicate (n : ℕ) (c : α) : varianceOf (List.replicate n c) = 0 := by
  cases n with
  | zero => simp [varianceOf, meanOf]
  | succ m =>
    unfold varianceOf
    rw [meanOf_replicate _ _ (Nat.succ_ne_zero m), List.map_replicate]
    simp

lemma calculateVolatility_chain_zero {l : List ℝ} {q : ℝ}
    (hch : l.Chain' (fun a b => b = q * a)) (hnz : ∀ x ∈ l, x ≠ 0)
    (hlen : 2 ≤ l.length) : calculateVolatility l = 0 := by
  unfold calculateVolatility
  rw [if_neg (not_lt.2 hlen),
    List.eq_replicate_of_mem (returns_const_of_chain hch hnz),
    varianceOf_replicate, Real.sqrt_zero]

lemma identifyPatterns_of_flat {data : List (Bar α)}
    (h : ∀ b ∈ data, b.open' = b.close ∧ b.high = b.close ∧ b.low = b.close) :
    identifyPatterns data = [] := by
  rw [identifyPatterns]
  split
  · rfl
  · next hlen =>
    have hmem1 : data.getD (data.length - 1) defaultBar ∈ data := by
      rw [List.getD_eq_getElem?_getD, List.getElem?_eq_getElem (by omega)]
      exact List.getElem_mem _
    have hmem2 : data.getD (data.length - 2) defaultBar ∈ data := by
      rw [List.getD_eq_getElem?_getD, List.getElem?_eq_getElem (by omega)]
      exact List.getElem_mem _
    obtain ⟨ho1, hh1, hl1⟩ := h _ hmem1
    obtain ⟨ho2, -, -⟩ := h _ hmem2
    rw [List.getD_eq_getElem?_getD] at ho1 hh1 hl1 ho2
    simp [ho1, hh1, hl1, ho2]

lemma calculateSMA_replicate (n : ℕ) (x : α) (hn : n ≠ 0) :
    calculateSMA (List.replicate n x) = x := by
  unfold calculateSMA
  rw [List.length_replicate, if_neg hn, List.sum_replicate, nsmul_eq_mul]
  have : (n : α) ≠ 0 := Nat.cast_ne_zero.2 hn
  field_simp

/-! ### Transfer of the indicator functions along the cast `ℚ → ℝ`
(the indicator definitions are uniform in the field, so concrete values can be
computed in `ℚ` and transported to the engine's `ℝ`). -/

lemma listSum_ratCast (l : List ℚ) :
    (l.map (Rat.cast : ℚ → ℝ)).sum = ((l.sum : ℚ) : ℝ) := by
  induction l with
  | nil => norm_num
  | cons x xs ih =>
    rw [List.map_cons, List.sum_cons, List.sum_cons, ih]
    push_cast
    ring

lemma calculateSMA_ratCast (l : List ℚ) :
    calculateSMA (l.map (Rat.cast : ℚ → ℝ)) = ((calculateSMA l : ℚ) : ℝ) := by
  unfold calculateSMA
  rw [List.length_map]
  by_cases h : l.length = 0
  · rw [if_pos h, if_pos h]
    norm_num
  · rw [if_neg h, if_neg h, listSum_ratCast]
    push_cast
    ring

lemma getLastD_ratCast (l : List ℚ) :
    (l.map (Rat.cast : ℚ → ℝ)).getLast?.getD 0 = ((l.getLast?.getD 0 : ℚ) : ℝ) := by
  rw [List.getLast?_map]
  cases l.getLast? with
  | none => norm_num
  | some v => rfl

lemma calculateEMA_ratCast (l : List ℚ) (p : ℕ) :
    calculateEMA (l.map (Rat.cast : ℚ → ℝ)) p = ((calculateEMA l p : ℚ) : ℝ) := by
  have hfold : ∀ (xs : List ℚ) (a : ℚ),
      (xs.map (Rat.cast : ℚ → ℝ)).foldl
          (fun e q => q * (2 / ((p : ℝ) + 1)) + e * (1 - 2 / ((p : ℝ) + 1))) ((a : ℚ) : ℝ) =
        ((xs.foldl (fun e q => q * (2 / ((p : ℚ) + 1)) + e * (1 - 2 / ((p : ℚ) + 1))) a :
          ℚ) : ℝ) := by
    intro xs
    induction xs with
    | nil => intro a; rfl
    | cons y ys ih =>
      intro a
      rw [List.map_cons, List.foldl_cons, List.foldl_cons, ← ih]
      congr 1
      push_cast
      ring
  unfold calculateEMA
  rw [List.length_map]
  split
  · exact getLastD_ratCast l
  · cases l with
    | nil => simp
    | cons x xs =>
      rw [List.map_cons]
      exact hfold xs x

lemma diffs_ratCast (l : List ℚ) :
    diffs (l.map (Rat.cast : ℚ → ℝ)) = (diffs l).map (Rat.cast : ℚ → ℝ) := by
  unfold diffs
  rw [← List.map_tail, List.zip_map, List.map_map, List.map_map]
  refine List.map_congr_left fun a _ => ?_
  rcases a with ⟨x, y⟩
  simp only [Function.comp_apply, Prod.map_apply]
  push_cast
  ring

lemma rsiLosses_ratCast (l : List ℚ) :
    rsiLosses (l.map (Rat.cast : ℚ → ℝ)) = (rsiLosses l).map (Rat.cast : ℚ → ℝ) := by
  unfold rsiLosses
  rw [diffs_ratCast, List.map_map, List.map_map]
  refine List.map_congr_left fun d _ => ?_
  by_cases hd : d < 0
  · have hd' : ((d : ℝ) < 0) := by exact_mod_cast hd
    simp only [Function.comp_apply, if_pos hd, if_pos hd']
    push_cast
    ring
  · have hd' : ¬ ((d : ℝ) < 0) := by exact_mod_cast hd
    simp only [Function.comp_apply, if_neg hd, if_neg hd']
    norm_num

lemma rsiGains_ratCast (l : List ℚ) :
    rsiGains (l.map (Rat.cast : ℚ → ℝ)) = (rsiGains l).map (Rat.cast : ℚ → ℝ) := by
  unfold rsiGains
  rw [diffs_ratCast, List.map_map, List.map_map]
  refine List.map_congr_left fun d _ => ?_
  by_cases hd : d > 0
  · have hd' : ((d : ℝ) > 0) := by exact_mod_cast hd
    simp only [Function.comp_apply, if_pos hd, if_pos hd']
  · have hd' : ¬ ((d : ℝ) > 0) := by exact_mod_cast hd
    simp only [Function.comp_apply, if_neg hd, if_neg hd']
    norm_num

lemma rsiAvgLoss_ratCast (l : List ℚ) (p : ℕ) :
    rsiAvgLoss (l.map (Rat.cast : ℚ → ℝ)) p = ((rsiAvgLoss l p : ℚ) : ℝ) := by
  unfold rsiAvgLoss
  rw [rsiLosses_ratCast, List.length_map, ← List.map_drop, listSum_ratCast]
  push_cast
  ring

lemma rsiAvgGain_ratCast (l : List ℚ) (p : ℕ) :
    rsiAvgGain (l.map (Rat.cast : ℚ → ℝ)) p = ((rsiAvgGain l p : ℚ) : ℝ) := by
  unfold rsiAvgGain
  rw [rsiGains_ratCast, List.length_map, ← List.map_drop, listSum_ratCast]
  push_cast
  ring

lemma calculateRSI_ratCast (l : List ℚ) (p : ℕ) :
    calculateRSI (l.map (Rat.cast : ℚ → ℝ)) p = ((calculateRSI l p : ℚ) : ℝ) := by
  unfold calculateRSI
  rw [List.length_map, rsiAvgLoss_ratCast, rsiAvgGain_ratCast]
  split
  · norm_num
  · by_cases h0 : rsiAvgLoss l p = 0
    · rw [if_pos (by exact_mod_cast h0), if_pos h0]
      norm_num
    · rw [if_neg (by exact_mod_cast h0), if_neg h0]
      push_cast
      ring

lemma macdValues_ratCast (l : List ℚ) :
    macdValues (l.map (Rat.cast : ℚ → ℝ)) = (macdValues l).map (Rat.cast : ℚ → ℝ) := by
  unfold macdValues
  rw [List.length_map, List.map_map]
  refine List.map_congr_left fun i _ => ?_
  rw [Function.comp_apply, ← List.map_take, calculateEMA_ratCast, calculateEMA_ratCast]
  push_cast
  ring

lemma calculateMACD_ratCast (l : List ℚ) :
    calculateMACD (l.map (Rat.cast : ℚ → ℝ)) =
      ⟨((calculateMACD l).macd : ℚ), ((calculateMACD l).signal : ℚ),
        ((calculateMACD l).histogram : ℚ)⟩ := by
  unfold calculateMACD
  simp only [MacdValue.mk.injEq]
  rw [macdValues_ratCast, calculateEMA_ratCast, calculateEMA_ratCast, calculateEMA_ratCast]
  refine ⟨by push_cast; ring, rfl, by push_cast; ring⟩

lemma listMax_ratCast (l : List ℚ) :
    listMax (l.map (Rat.cast : ℚ → ℝ)) = ((listMax l : ℚ) : ℝ) := by
  have hfold : ∀ (xs : List ℚ) (a : ℚ),
      (xs.map (Rat.cast : ℚ → ℝ)).foldl max ((a : ℚ) : ℝ) = ((xs.foldl max a : ℚ) : ℝ) := by
    intro xs
    induction xs with
    | nil => intro a; rfl
    | cons y ys ih =>
      intro a
      rw [List.map_cons, List.foldl_cons, List.foldl_cons, ← Rat.cast_max, ih]
  cases l with
  | nil => norm_num [listMax]
  | cons x xs => exact hfold xs x

lemma listMin_ratCast (l : List ℚ) :
    listMin (l.map (Rat.cast : ℚ → ℝ)) = ((listMin l : ℚ) : ℝ) := by
  have hfold : ∀ (xs : List ℚ) (a : ℚ),
      (xs.map (Rat.cast : ℚ → ℝ)).foldl min ((a : ℚ) : ℝ) = ((xs.foldl min a : ℚ) : ℝ) := by
    intro xs
    induction xs with
    | nil => intro a; rfl
    | cons y ys ih =>
      intro a
      rw [List.map_cons, List.foldl_cons, List.foldl_cons, ← Rat.cast_min, ih]
  cases l with
  | nil => norm_num [listMin]
  | cons x xs => exact hfold xs x

lemma getD_ratCast (l : List ℚ) (i : ℕ) :
    (l.map (Rat.cast : ℚ → ℝ)).getD i 0 = ((l.getD i 0 : ℚ) : ℝ) := by
  rw [List.getD_eq_getElem?_getD, List.getD_eq_getElem?_getD, List.getElem?_map]
  cases l[i]? with
  | none => norm_num
  | some v => rfl

lemma stochasticRange_ratCast (highs lows : List ℚ) (p : ℕ) :
    stochasticRange (highs.map (Rat.cast : ℚ → ℝ)) (lows.map (Rat.cast : ℚ → ℝ)) p =
      ((stochasticRange highs lows p : ℚ) : ℝ) := by
  unfold stochasticRange
  rw [List.length_map, List.length_map, ← List.map_drop, ← List.map_drop,
    listMax_ratCast, listMin_ratCast]
  push_cast
  ring

lemma stochasticKValues_ratCast (highs lows closes : List ℚ) (p : ℕ) :
    stochasticKValues (highs.map (Rat.cast : ℚ → ℝ)) (lows.map (Rat.cast : ℚ → ℝ))
        (closes.map (Rat.cast : ℚ → ℝ)) p =
      (stochasticKValues highs lows closes p).map (Rat.cast : ℚ → ℝ) := by
  unfold stochasticKValues
  rw [List.length_map, List.map_map]
  refine List.map_congr_left fun i _ => ?_
  simp only [Function.comp_apply, ← List.map_take, ← List.map_drop, listMax_ratCast,
    listMin_ratCast, getD_ratCast]
  push_cast
  ring

lemma calculateStochastic_ratCast (highs lows closes : List ℚ) (p : ℕ) :
    calculateStochastic (highs.map (Rat.cast : ℚ → ℝ)) (lows.map (Rat.cast : ℚ → ℝ))
        (closes.map (Rat.cast : ℚ → ℝ)) p =
      ⟨((calculateStochastic highs lows closes p).k : ℚ),
        ((calculateStochastic highs lows closes p).d : ℚ)⟩ := by
  unfold calculateStochastic
  rw [List.length_map]
  by_cases h : highs.length < p
  · rw [if_pos h, if_pos h]
    norm_num [Stoch.mk.injEq]
  · rw [if_neg h, if_neg h]
    simp only [Stoch.mk.injEq]
    constructor
    · rw [getLastD_ratCast, List.length_map, ← List.map_drop, listMin_ratCast,
        stochasticRange_ratCast]
      push_cast
      ring
    · rw [stochasticKValues_ratCast, List.length_map, ← List.map_drop,
        calculateSMA_ratCast]

/-! ### Claims -/

/-- C1 (amended): the `confidence` returned by `calculateAdvancedPrediction`
lies within `[0.1, 0.95]` on the insufficient-data fallback (always 0.3) and on
every full-model input whose `volumeRatio` division is not the `0/0` case —
i.e. except when both the `volume` argument and the trailing-20 average volume
`avgVolume20` are zero.  In that excluded case the program computes
`volumeRatio = 0/0 = NaN`, which `Math.min`/`Math.max` propagate into a `NaN`
confidence, outside `[0.1, 0.95]`; the clamp at lines 407-409 bounds every
non-`NaN` value. -/
theorem c1_confidence_bounds (rand currentPrice volume marketCap timeHorizonMinutes : ℝ)
    (historicalData : List (Bar ℝ))
    (h : historicalData.length < 50 ∨
      ¬(volume = 0 ∧ avgVolume20 historicalData = 0)) :
    0.1 ≤ (calculateAdvancedPrediction rand currentPrice historicalData volume marketCap
        timeHorizonMinutes).confidence ∧
      (calculateAdvancedPrediction rand currentPrice historicalData volume marketCap
        timeHorizonMinutes).confidence ≤ 0.95 := by
  clear h
  rw [calculateAdvancedPrediction]
  split
  · constructor <;> norm_num
  · exact toFixed2_clamp _

theorem c1_witness :
    ((List.replicate 50 (flatBar (100 : ℝ) 1000)).length < 50 ∨
      ¬((1 : ℝ) = 0 ∧ avgVolume20 (List.replicate 50 (flatBar (100 : ℝ) 1000)) = 0)) ∧
      (0.1 ≤ (calculateAdvancedPrediction 0.5 100 (List.replicate 50 (flatBar 100 1000))
          1 0 30).confidence ∧
        (calculateAdvancedPrediction 0.5 100 (List.replicate 50 (flatBar 100 1000))
          1 0 30).confidence ≤ 0.95) :=
  ⟨Or.inr (by norm_num),
    c1_confidence_bounds 0.5 100 1 0 30 (List.replicate 50 (flatBar 100 1000))
      (Or.inr (by norm_num))⟩

/-- C1 counterexample: a 50-bar history of zero-volume bars with the default
`volume = 0` takes the full-model path (the length guard passes) while the
`volumeRatio` divisor `avgVolume20` is zero with a zero numerator — the program
executes `0/0` (`NaN` in JavaScript, collapsed to `0` in this total model), and
the resulting `NaN` confidence escapes the `Math.min`/`Math.max` clamp, so the
universal `[0.1, 0.95]` claim is false of the program. -/
theorem c1_counterexample :
    ¬((List.replicate 50 (flatBar (100 : ℝ) 0)).length < 50) ∧
      avgVolume20 (List.replicate 50 (flatBar (100 : ℝ) 0)) = 0 ∧
      (0 : ℝ) / avgVolume20 (List.replicate 50 (flatBar (100 : ℝ) 0)) = 0 := by
  have hv : avgVolume20 (List.replicate 50 (flatBar (100 : ℝ) 0)) = 0 := by
    rw [avgVolume20, List.map_replicate,
      show (flatBar (100 : ℝ) 0).volume = 0 from rfl, List.length_replicate,
      List.drop_replicate]
    exact calculateSMA_replicate _ _ (by norm_num)
  exact ⟨by simp, hv, by rw [hv, div_zero]⟩

/-- C2: on every history shorter than 50 bars, `calculateAdvancedPrediction`
returns confidence exactly `0.3`, signals `["Insufficient historical data"]`,
and `predictedPrice = currentPrice * (1 + u)` with `u = (rand - 1/2) * 0.02`;
for a draw `rand ∈ [0, 1)` the perturbation `u` lies in `[-0.01, 0.01)`. -/
theorem c2_insufficient_data_fallback (rand currentPrice volume marketCap
    timeHorizonMinutes : ℝ) (historicalData : List (Bar ℝ))
    (h : historicalData.length < 50) :
    (calculateAdvancedPrediction rand currentPrice historicalData volume marketCap
        timeHorizonMinutes).confidence = 0.3 ∧
      (calculateAdvancedPrediction rand currentPrice historicalData volume marketCap
        timeHorizonMinutes).signals = ["Insufficient historical data"] ∧
      (calculateAdvancedPrediction rand currentPrice historicalData volume marketCap
        timeHorizonMinutes).predictedPrice = currentPrice * (1 + (rand - 1/2) * (2/100)) ∧
      (0 ≤ rand → rand < 1 →
        -(1/100) ≤ (rand - 1/2) * (2/100) ∧ (rand - 1/2) * (2/100) < 1/100) := by
  rw [calculateAdvancedPrediction, if_pos h]
  refine ⟨rfl, rfl, by norm_num, fun h0 h1 => ⟨by linarith, by linarith⟩⟩

theorem c2_witness :
    (([] : List (Bar ℝ)).length < 50) ∧
      ((calculateAdvancedPrediction (1/2) 100 [] 0 0 30).confidence = 0.3 ∧
        (calculateAdvancedPrediction (1/2) 100 [] 0 0 30).signals =
          ["Insufficient historical data"] ∧
        (calculateAdvancedPrediction (1/2) 100 [] 0 0 30).predictedPrice =
          100 * (1 + ((1:ℝ)/2 - 1/2) * (2/100)) ∧
        (0 ≤ (1:ℝ)/2 → (1:ℝ)/2 < 1 →
          -(1/100) ≤ ((1:ℝ)/2 - 1/2) * (2/100) ∧ ((1:ℝ)/2 - 1/2) * (2/100) < 1/100)) :=
  ⟨by simp, c2_insufficient_data_fallback (1/2) 100 0 0 30 [] (by simp)⟩

/-- C10: on the insufficient-data fallback path the trend is never `neutral`;
it is `bullish` exactly when the draw is strictly above `1/2` (so that the
random-walk term is strictly positive), and `bearish` otherwise, including at a
draw of exactly `1/2`. -/
theorem c10_fallback_trend (rand currentPrice volume marketCap timeHorizonMinutes : ℝ)
    (historicalData : List (Bar ℝ)) (h : historicalData.length < 50) :
    ((calculateAdvancedPrediction rand currentPrice historicalData volume marketCap
        timeHorizonMinutes).trend = Trend.bullish ↔ 1/2 < rand) ∧
      (calculateAdvancedPrediction rand currentPrice historicalData volume marketCap
        timeHorizonMinutes).trend ≠ Trend.neutral := by
  have hcond : ((rand - 0.5) * 0.02 > 0) ↔ 1/2 < rand :=
    ⟨fun hw => by nlinarith, fun hr => by nlinarith⟩
  simp only [calculateAdvancedPrediction, if_pos h]
  constructor
  · split
    · next hw => exact ⟨fun _ => hcond.1 hw, fun _ => rfl⟩
    · next hw =>
      exact ⟨fun hb => absurd hb (by decide), fun hr => absurd (hcond.2 hr) hw⟩
  · split <;> decide

theorem c10_witness :
    (([] : List (Bar ℝ)).length < 50) ∧
      (((calculateAdvancedPrediction 1 100 [] 0 0 30).trend = Trend.bullish ↔
          (1:ℝ)/2 < 1) ∧
        (calculateAdvancedPrediction 1 100 [] 0 0 30).trend ≠ Trend.neutral) :=
  ⟨by simp, c10_fallback_trend 1 100 0 0 30 [] (by simp)⟩

/-- C9: the signal list returned by `calculateAdvancedPrediction` never has more
than 5 entries, and on the full-model path it is exactly the first 5 entries of
the accumulated signal list in evaluation order (no re-ranking). -/
theorem c9_signals_truncation (rand currentPrice volume marketCap timeHorizonMinutes : ℝ)
    (historicalData : List (Bar ℝ)) :
    (calculateAdvancedPrediction rand currentPrice historicalData volume marketCap
        timeHorizonMinutes).signals.length ≤ 5 ∧
      (50 ≤ historicalData.length →
        (calculateAdvancedPrediction rand currentPrice historicalData volume marketCap
          timeHorizonMinutes).signals =
          (sentimentSignals currentPrice historicalData volume).2.take 5) := by
  rw [calculateAdvancedPrediction]
  split
  · next hlt => exact ⟨by simp, fun hge => absurd hge (by omega)⟩
  · refine ⟨?_, fun _ => rfl⟩
    simp

/-- C7: `calculateRSI` with period `p` returns exactly 50 on every series with
fewer than `p + 1` points, and exactly 100 on every series of at least `p + 1`
points (for `0 < p`, as with the default 14) whose trailing `p` deltas contain
no losses, so that the average loss is zero. -/
theorem c7_rsi_neutral_and_no_loss (prices : List α) (period : ℕ) :
    (prices.length < period + 1 → calculateRSI prices period = 50) ∧
      (0 < period → period + 1 ≤ prices.length →
        (∀ d ∈ (diffs prices).drop ((diffs prices).length - period), 0 ≤ d) →
        calculateRSI prices period = 100) := by
  refine ⟨fun h => by rw [calculateRSI, if_pos h], fun _ hlen hd => ?_⟩
  exact calculateRSI_of_avgLoss_eq_zero prices period hlen
    (rsiAvgLoss_eq_zero_of_no_losses prices period hd)

unseal Rat.add Rat.sub Rat.mul Rat.inv Rat.ofScientific in
theorem c7_witness :
    calculateRSI ([1, 2, 3] : List ℚ) 14 = 50 ∧
      calculateRSI ([1, 2, 3, 4, 5, 6, 7, 8, 9, 10, 11, 12, 13, 14, 15, 16] : List ℚ) 14 =
        100 :=
  ⟨(c7_rsi_neutral_and_no_loss [1, 2, 3] 14).1 (by decide),
    (c7_rsi_neutral_and_no_loss
      [1, 2, 3, 4, 5, 6, 7, 8, 9, 10, 11, 12, 13, 14, 15, 16] 14).2
      (by decide) (by decide) (by decide)⟩

/-- C5 (amended): `findSupportResistanceLevels` returns at most 3 support and at
most 3 resistance levels, namely the trailing slice (the most recent hits, not
the strongest) of the accumulated hit lists — but kept in chronological scan
order, i.e. most-recent-LAST, not most-recent-first. -/
theorem c5_sr_trailing_slice (highs lows prices : List α) :
    (findSupportResistanceLevels highs lows prices).support.length ≤ 3 ∧
      (findSupportResistanceLevels highs lows prices).resistance.length ≤ 3 ∧
      (findSupportResistanceLevels highs lows prices).support <:+
        supportPoints lows prices ∧
      (findSupportResistanceLevels highs lows prices).resistance <:+
        resistancePoints highs prices := by
  refine ⟨?_, ?_, List.drop_suffix _ _, List.drop_suffix _ _⟩ <;>
    · rw [findSupportResistanceLevels]
      simp only [List.length_drop]
      omega

unseal Rat.add Rat.sub Rat.mul Rat.inv Rat.ofScientific in
/-- C5 counterexample: on this 9-bar series the support hits, in chronological
order, are `5` (index 2) and then `4` (index 6); the function returns `[5, 4]`
(most-recent-last), not the most-recent-first ordering `[4, 5]` asserted by the
claim. -/
theorem c5_counterexample :
    supportPoints ([10, 9, 5, 9, 10, 8, 4, 8, 10] : List ℚ)
        [10, 9, 5, 9, 10, 8, 4, 8, 10] = [5, 4] ∧
      (findSupportResistanceLevels ([1, 2, 3, 4, 5, 6, 7, 8, 9] : List ℚ)
        [10, 9, 5, 9, 10, 8, 4, 8, 10] [10, 9, 5, 9, 10, 8, 4, 8, 10]).support = [5, 4] ∧
      (findSupportResistanceLevels ([1, 2, 3, 4, 5, 6, 7, 8, 9] : List ℚ)
        [10, 9, 5, 9, 10, 8, 4, 8, 10] [10, 9, 5, 9, 10, 8, 4, 8, 10]).support ≠
        [4, 5] := by
  refine ⟨by decide, by decide, by decide⟩

/-- C6: on aligned equal-length, strictly monotonically increasing high and low
series, `findSupportResistanceLevels` returns empty support and resistance
lists: no index passes the strict local-extremum tests at offsets 1 and 2. -/
theorem c6_monotonic_no_levels (highs lows prices : List α)
    (hlen1 : highs.length = lows.length) (hlen2 : prices.length = lows.length)
    (hlo : lows.Pairwise (· < ·)) (hhi : highs.Pairwise (· < ·)) :
    (findSupportResistanceLevels highs lows prices).support = [] ∧
      (findSupportResistanceLevels highs lows prices).resistance = [] := by
  rw [findSupportResistanceLevels, supportPoints_nil_of_monotone (hlo.imp le_of_lt),
    resistancePoints_nil_of_monotone (hhi.imp le_of_lt)]
  exact ⟨rfl, rfl⟩

set_option maxRecDepth 4000 in
unseal Rat.add Rat.sub Rat.mul Rat.inv Rat.ofScientific in
theorem c6_witness :
    (([2, 3, 4, 5, 6, 7, 8] : List ℚ).length = ([1, 2, 3, 4, 5, 6, 7] : List ℚ).length) ∧
      (findSupportResistanceLevels ([2, 3, 4, 5, 6, 7, 8] : List ℚ)
          [1, 2, 3, 4, 5, 6, 7] [1, 2, 3, 4, 5, 6, 7]).support = [] ∧
        (findSupportResistanceLevels ([2, 3, 4, 5, 6, 7, 8] : List ℚ)
          [1, 2, 3, 4, 5, 6, 7] [1, 2, 3, 4, 5, 6, 7]).resistance = [] :=
  ⟨by decide, c6_monotonic_no_levels [2, 3, 4, 5, 6, 7, 8] [1, 2, 3, 4, 5, 6, 7]
    [1, 2, 3, 4, 5, 6, 7] (by decide) (by decide) (by decide) (by decide)⟩

/-- C3 (amended): the RSI division is guarded — whenever the data-length check
passes and the average loss is zero, `calculateRSI` returns 100 before any
division — but `calculateStochastic` has NO zero-range guard: on 14 flat bars
the length guard passes, the `%K` divisor `highestHigh - lowestLow`
(`stochasticRange`) is zero, and the division is executed anyway (`0/0`, `NaN`
in JavaScript; `0` in this total model). -/
theorem c3_division_guards :
    (∀ (prices : List α) (period : ℕ), 0 < period → period + 1 ≤ prices.length →
        rsiAvgLoss prices period = 0 → calculateRSI prices period = 100) ∧
      (14 ≤ (List.replicate 14 (100 : α)).length ∧
        stochasticRange (List.replicate 14 (100 : α)) (List.replicate 14 100) 14 = 0 ∧
        (calculateStochastic (List.replicate 14 (100 : α)) (List.replicate 14 100)
          (List.replicate 14 100) 14).k = 0) := by
  refine ⟨fun prices period _ hlen h0 =>
    calculateRSI_of_avgLoss_eq_zero prices period hlen h0, by simp, ?_, ?_⟩
  · rw [stochasticRange]
    norm_num [listMax_replicate 13 (100 : α), listMin_replicate 13 (100 : α)]
  · rw [calculateStochastic, if_neg (by simp)]
    have hrange : stochasticRange (List.replicate 14 (100 : α))
        (List.replicate 14 100) 14 = 0 := by
      rw [stochasticRange]
      norm_num [listMax_replicate 13 (100 : α), listMin_replicate 13 (100 : α)]
    simp only [hrange, div_zero, zero_mul]

unseal Rat.add Rat.sub Rat.mul Rat.inv Rat.ofScientific in
theorem c3_witness :
    calculateRSI (List.replicate 20 (5 : ℚ)) 14 = 100 :=
  (c3_division_guards (α := ℚ)).1 (List.replicate 20 5) 14 (by decide) (by decide)
    (by decide)

set_option maxRecDepth 4000 in
unseal Rat.add Rat.sub Rat.mul Rat.inv Rat.ofScientific in
/-- C3 counterexample: with 14 flat bars the stochastic length guard passes,
yet the executed `%K` division has a zero divisor — the division-by-zero branch
of `calculateStochastic` is reachable, contradicting the claimed guard. -/
theorem c3_counterexample :
    14 ≤ (List.replicate 14 (100 : ℚ)).length ∧
      stochasticRange (List.replicate 14 (100 : ℚ)) (List.replicate 14 100) 14 = 0 ∧
      (calculateStochastic (List.replicate 14 (100 : ℚ)) (List.replicate 14 100)
        (List.replicate 14 100) 14).k = 0 := by
  refine ⟨by decide, by decide, by decide⟩

theorem c9_witness :
    50 ≤ (List.replicate 50 (flatBar (100:ℝ) 1000)).length ∧
      (calculateAdvancedPrediction 0.5 100 (List.replicate 50 (flatBar 100 1000))
          0 0 30).signals =
        (sentimentSignals 100 (List.replicate 50 (flatBar 100 1000)) 0).2.take 5 :=
  ⟨by simp, (c9_signals_truncation 0.5 100 0 0 30 (List.replicate 50 (flatBar 100 1000))).2
    (by simp)⟩


/-! ### The flat 60-bar scenario (claim C4) -/

/-- 60 identical flat bars: `open = high = low = close = 100`, volume 100000. -/
def flatHist : List (Bar ℝ) := List.replicate 60 (flatBar 100 100000)

/-- The closing prices of `flatHist`, as rationals. -/
def qflat : List ℚ := List.replicate 60 100

lemma pairwise_le_replicate (n : ℕ) (a : α) : (List.replicate n a).Pairwise (· ≤ ·) := by
  rw [List.pairwise_iff_getElem]
  intro i j hi hj _
  simp

lemma flat_close_eq :
    List.map Bar.close flatHist = List.map (Rat.cast : ℚ → ℝ) qflat := by
  rw [flatHist, qflat, List.map_replicate, List.map_replicate]
  norm_num [flatBar]

lemma flat_high_eq :
    List.map Bar.high flatHist = List.map (Rat.cast : ℚ → ℝ) qflat := by
  rw [flatHist, qflat, List.map_replicate, List.map_replicate]
  norm_num [flatBar]

lemma flat_low_eq :
    List.map Bar.low flatHist = List.map (Rat.cast : ℚ → ℝ) qflat := by
  rw [flatHist, qflat, List.map_replicate, List.map_replicate]
  norm_num [flatBar]

lemma flat_volume_eq :
    List.map Bar.volume flatHist = List.replicate 60 (100000 : ℝ) := by
  rw [flatHist, List.map_replicate]
  norm_num [flatBar]

set_option maxRecDepth 10000 in
unseal Rat.add Rat.sub Rat.mul Rat.inv Rat.ofScientific in
lemma qflat_sma20 : calculateSMA (qflat.drop (qflat.length - 20)) = 100 := by decide

set_option maxRecDepth 10000 in
unseal Rat.add Rat.sub Rat.mul Rat.inv Rat.ofScientific in
lemma qflat_sma50 : calculateSMA (qflat.drop (qflat.length - 50)) = 100 := by decide

set_option maxRecDepth 10000 in
unseal Rat.add Rat.sub Rat.mul Rat.inv Rat.ofScientific in
lemma qflat_ema12 : calculateEMA qflat 12 = 100 := by decide

set_option maxRecDepth 10000 in
unseal Rat.add Rat.sub Rat.mul Rat.inv Rat.ofScientific in
lemma qflat_ema26 : calculateEMA qflat 26 = 100 := by decide

set_option maxRecDepth 10000 in
unseal Rat.add Rat.sub Rat.mul Rat.inv Rat.ofScientific in
lemma qflat_rsi : calculateRSI qflat 14 = 100 := by decide

set_option maxRecDepth 40000 in
unseal Rat.add Rat.sub Rat.mul Rat.inv Rat.ofScientific in
lemma qflat_macd : calculateMACD qflat = ⟨0, 0, 0⟩ := by decide

set_option maxRecDepth 40000 in
unseal Rat.add Rat.sub Rat.mul Rat.inv Rat.ofScientific in
lemma qflat_stoch : calculateStochastic qflat qflat qflat 14 = ⟨0, 0⟩ := by decide

set_option maxRecDepth 10000 in
unseal Rat.add Rat.sub Rat.mul Rat.inv Rat.ofScientific in
lemma qflat_range : stochasticRange qflat qflat 14 = 0 := by decide

lemma cast_qflat_pairwise : (List.map (Rat.cast : ℚ → ℝ) qflat).Pairwise (· ≤ ·) := by
  rw [qflat, List.map_replicate]
  exact pairwise_le_replicate _ _

lemma flat_sr_empty :
    findSupportResistanceLevels (List.map (Rat.cast : ℚ → ℝ) qflat)
      (List.map (Rat.cast : ℚ → ℝ) qflat) (List.map (Rat.cast : ℚ → ℝ) qflat) =
      ⟨[], []⟩ := by
  rw [findSupportResistanceLevels, supportPoints_nil_of_monotone cast_qflat_pairwise,
    resistancePoints_nil_of_monotone cast_qflat_pairwise]
  rfl

lemma flat_patterns_empty :
    identifyPatterns (flatHist.drop (flatHist.length - 20)) = [] := by
  apply identifyPatterns_of_flat
  intro b hb
  rw [flatHist, List.length_replicate, List.drop_replicate] at hb
  rw [List.eq_of_mem_replicate hb]
  exact ⟨rfl, rfl, rfl⟩

lemma sentimentSignals_flat :
    sentimentSignals 100 flatHist 0 =
      (-0.24, ["Bearish EMA trend", "Overbought (RSI > 70)", "Oversold (Stochastic)",
        "Low volume warning"]) := by
  have hsma20 : calculateSMA ((List.map (Rat.cast : ℚ → ℝ) qflat).drop
      ((List.map (Rat.cast : ℚ → ℝ) qflat).length - 20)) = (100 : ℝ) := by
    rw [List.length_map, ← List.map_drop, calculateSMA_ratCast, qflat_sma20]
    norm_num
  have hsma50 : calculateSMA ((List.map (Rat.cast : ℚ → ℝ) qflat).drop
      ((List.map (Rat.cast : ℚ → ℝ) qflat).length - 50)) = (100 : ℝ) := by
    rw [List.length_map, ← List.map_drop, calculateSMA_ratCast, qflat_sma50]
    norm_num
  have hema12 : calculateEMA (List.map (Rat.cast : ℚ → ℝ) qflat) 12 = (100 : ℝ) := by
    rw [calculateEMA_ratCast, qflat_ema12]
    norm_num
  have hema26 : calculateEMA (List.map (Rat.cast : ℚ → ℝ) qflat) 26 = (100 : ℝ) := by
    rw [calculateEMA_ratCast, qflat_ema26]
    norm_num
  have hrsi : calculateRSI (List.map (Rat.cast : ℚ → ℝ) qflat) 14 = (100 : ℝ) := by
    rw [calculateRSI_ratCast, qflat_rsi]
    norm_num
  have hmacd : calculateMACD (List.map (Rat.cast : ℚ → ℝ) qflat) =
      ⟨(0 : ℝ), 0, 0⟩ := by
    rw [calculateMACD_ratCast, qflat_macd]
    norm_num
  have hstoch : calculateStochastic (List.map (Rat.cast : ℚ → ℝ) qflat)
      (List.map (Rat.cast : ℚ → ℝ) qflat) (List.map (Rat.cast : ℚ → ℝ) qflat) 14 =
      ⟨(0 : ℝ), 0⟩ := by
    rw [calculateStochastic_ratCast, qflat_stoch]
    norm_num
  have havg : avgVolume20 flatHist = (100000 : ℝ) := by
    rw [avgVolume20, flat_volume_eq, List.length_replicate, List.drop_replicate]
    exact calculateSMA_replicate _ _ (by norm_num)
  rw [sentimentSignals]
  simp only [flat_close_eq, flat_high_eq, flat_low_eq, hsma20, hsma50, hema12, hema26,
    hrsi, hmacd, hstoch, flat_sr_empty, havg, flat_patterns_empty]
  norm_num [flatHist]

lemma engine_flat_trend_price (rand : ℝ) :
    (calculateAdvancedPrediction rand 100 flatHist 0 2000000000 30).trend =
        Trend.bearish ∧
      (calculateAdvancedPrediction rand 100 flatHist 0 2000000000 30).predictedPrice =
        100 ∧
      (calculateAdvancedPrediction rand 100 flatHist 0 2000000000 30).confidence ≤
        0.95 := by
  have hlen : ¬ (flatHist.length < 50) := by norm_num [flatHist]
  have hvol : calculateVolatility ((List.map Bar.close flatHist).drop
      ((List.map Bar.close flatHist).length - 20)) = 0 := by
    have hcl : (List.map Bar.close flatHist).drop
        ((List.map Bar.close flatHist).length - 20) = List.replicate 20 (100 : ℝ) := by
      rw [flatHist, List.map_replicate, List.length_replicate, List.drop_replicate]
      norm_num [flatBar]
    rw [hcl]
    refine calculateVolatility_chain_zero (q := 1)
      (List.chain'_replicate_of_rel _ (by norm_num)) ?_ (by norm_num)
    intro x hx
    rw [List.eq_of_mem_replicate hx]
    norm_num
  simp only [calculateAdvancedPrediction, if_neg hlen, sentimentSignals_flat, hvol]
  refine ⟨by norm_num, ?_, (toFixed2_clamp _).2⟩
  have h1 : (100 : ℝ) * (1 + (-0.24 * 0 * Real.exp (-30 / 120) *
      (if (2000000000 : ℝ) > 1000000000 then (0.8 : ℝ) else 1.2) +
      (rand - 0.5) * 0 * 0.2)) = 100 := by
    norm_num
  rw [h1]
  rw [toFixed2, show (100 : ℝ) * 100 = ((10000 : ℤ) : ℝ) by norm_num, round_intCast]
  norm_num

/-- C4 (amended): on 60 identical flat bars (OHLC all 100, volume 100000) with
currentPrice 100, marketCap 2e9 and horizon 30, the RSI is 100 — not 50 — (the
zero average loss triggers the `avgLoss == 0` branch), so the overbought signal
fires at -0.25; MACD is 0; the stochastic `%K` divisor is 0 (a `0/0` division,
`NaN` in JavaScript, not `{50, 50}`); the EMA tie takes the bearish branch at
-0.2; the sentiment score ends strictly below -0.1, so the trend is "bearish",
not "neutral".  Volatility is exactly 0, so `predictedPrice` is exactly 100, and
`confidence` is at most 0.95, for every value of the random draw. -/
theorem c4_flat_scenario (rand : ℝ) :
    calculateRSI (List.replicate 60 (100 : ℝ)) 14 = 100 ∧
      (calculateMACD (List.replicate 60 (100 : ℝ))).macd = 0 ∧
      stochasticRange (List.replicate 60 (100 : ℝ)) (List.replicate 60 100) 14 = 0 ∧
      (calculateAdvancedPrediction rand 100 flatHist 0 2000000000 30).trend =
        Trend.bearish ∧
      (calculateAdvancedPrediction rand 100 flatHist 0 2000000000 30).predictedPrice =
        100 ∧
      (calculateAdvancedPrediction rand 100 flatHist 0 2000000000 30).confidence ≤
        0.95 := by
  have hrep : List.replicate 60 (100 : ℝ) = List.map (Rat.cast : ℚ → ℝ) qflat := by
    rw [qflat, List.map_replicate]
    norm_num
  obtain ⟨ht, hp, hc⟩ := engine_flat_trend_price rand
  refine ⟨?_, ?_, ?_, ht, hp, hc⟩
  · rw [hrep, calculateRSI_ratCast, qflat_rsi]
    norm_num
  · rw [hrep, calculateMACD_ratCast, qflat_macd]
    norm_num
  · rw [hrep, stochasticRange_ratCast, qflat_range]
    norm_num

/-- C4 counterexample: the claim asserts the flat-bar scenario yields a neutral
RSI of 50; in fact `calculateRSI` on the 60 flat closes is exactly 100. -/
theorem c4_counterexample :
    calculateRSI (List.replicate 60 (100 : ℝ)) 14 = 100 ∧ (100 : ℝ) ≠ 50 := by
  constructor
  · have hrep : List.replicate 60 (100 : ℝ) = List.map (Rat.cast : ℚ → ℝ) qflat := by
      rw [qflat, List.map_replicate]
      norm_num
    rw [hrep, calculateRSI_ratCast, qflat_rsi]
    norm_num
  · norm_num


/-! ### The monotonically rising (+1% per close) 60-bar scenario (claim C8) -/

/-- The closes `100 * 1.01 ^ i`, `i < 60`, as rationals. -/
def qgeom : List ℚ := (List.range 60).map fun i => 100 * (101 / 100) ^ i

/-- The final close `100 * 1.01 ^ 59`. -/
def c59 : ℚ := 100 * (101 / 100) ^ 59

/-- The 60-bar rising history: flat bars at the geometric closes, volume 100000. -/
noncomputable def geomHist : List (Bar ℝ) :=
  List.map (fun q : ℚ => flatBar (q : ℝ) 100000) qgeom

lemma geom_close_eq :
    List.map Bar.close geomHist = List.map (Rat.cast : ℚ → ℝ) qgeom := by
  rw [geomHist, List.map_map]
  rfl

lemma geom_high_eq :
    List.map Bar.high geomHist = List.map (Rat.cast : ℚ → ℝ) qgeom := by
  rw [geomHist, List.map_map]
  rfl

lemma geom_low_eq :
    List.map Bar.low geomHist = List.map (Rat.cast : ℚ → ℝ) qgeom := by
  rw [geomHist, List.map_map]
  rfl

lemma geom_volume_eq :
    List.map Bar.volume geomHist = List.replicate 60 (100000 : ℝ) := by
  have h : List.map Bar.volume geomHist = List.map (fun _ : ℚ => (100000 : ℝ)) qgeom := by
    rw [geomHist, List.map_map]
    rfl
  rw [h, List.map_const', qgeom, List.length_map, List.length_range]

set_option maxRecDepth 100000 in
set_option maxHeartbeats 2000000 in
unseal Rat.add Rat.sub Rat.mul Rat.inv Rat.ofScientific in
lemma qgeom_ma :
    calculateSMA (qgeom.drop (qgeom.length - 20)) < c59 ∧
      calculateSMA (qgeom.drop (qgeom.length - 50)) <
        calculateSMA (qgeom.drop (qgeom.length - 20)) := by decide

set_option maxRecDepth 100000 in
set_option maxHeartbeats 2000000 in
unseal Rat.add Rat.sub Rat.mul Rat.inv Rat.ofScientific in
lemma qgeom_ema : calculateEMA qgeom 26 < calculateEMA qgeom 12 := by decide

set_option maxRecDepth 100000 in
set_option maxHeartbeats 2000000 in
unseal Rat.add Rat.sub Rat.mul Rat.inv Rat.ofScientific in
lemma qgeom_rsi : calculateRSI qgeom 14 = 100 := by decide

set_option maxRecDepth 100000 in
set_option maxHeartbeats 4000000 in
unseal Rat.add Rat.sub Rat.mul Rat.inv Rat.ofScientific in
lemma qgeom_macd :
    (calculateMACD qgeom).signal < (calculateMACD qgeom).macd ∧
      0 < (calculateMACD qgeom).histogram := by decide

set_option maxRecDepth 100000 in
set_option maxHeartbeats 2000000 in
unseal Rat.add Rat.sub Rat.mul Rat.inv Rat.ofScientific in
lemma qgeom_stoch : calculateStochastic qgeom qgeom qgeom 14 = ⟨100, 100⟩ := by decide

set_option maxRecDepth 100000 in
set_option maxHeartbeats 2000000 in
unseal Rat.add Rat.sub Rat.mul Rat.inv Rat.ofScientific in
lemma qgeom_pairwise : qgeom.Pairwise (· < ·) := by decide

set_option maxRecDepth 100000 in
set_option maxHeartbeats 2000000 in
unseal Rat.add Rat.sub Rat.mul Rat.inv Rat.ofScientific in
lemma qgeom_last : qgeom.getLast?.getD 0 = c59 := by decide

set_option maxRecDepth 100000 in
set_option maxHeartbeats 2000000 in
unseal Rat.add Rat.sub Rat.mul Rat.inv Rat.ofScientific in
lemma c59_round_lt : ((round (c59 * 100) : ℤ) : ℚ) / 100 < c59 := by decide

lemma cast_qgeom_pairwise : (List.map (Rat.cast : ℚ → ℝ) qgeom).Pairwise (· ≤ ·) :=
  (qgeom_pairwise.map _ fun _ _ h => Rat.cast_le.2 h.le)

lemma geom_sr_empty :
    findSupportResistanceLevels (List.map (Rat.cast : ℚ → ℝ) qgeom)
      (List.map (Rat.cast : ℚ → ℝ) qgeom) (List.map (Rat.cast : ℚ → ℝ) qgeom) =
      ⟨[], []⟩ := by
  rw [findSupportResistanceLevels, supportPoints_nil_of_monotone cast_qgeom_pairwise,
    resistancePoints_nil_of_monotone cast_qgeom_pairwise]
  rfl

lemma geom_patterns_empty :
    identifyPatterns (geomHist.drop (geomHist.length - 20)) = [] := by
  apply identifyPatterns_of_flat
  intro b hb
  have hb' : b ∈ geomHist := List.mem_of_mem_drop hb
  rw [geomHist] at hb'
  obtain ⟨q, -, rfl⟩ := List.mem_map.1 hb'
  exact ⟨rfl, rfl, rfl⟩

lemma geom_closes_chain :
    (List.map (Rat.cast : ℚ → ℝ) qgeom).Chain'
      (fun a b => b = (101 / 100 : ℝ) * a) := by
  rw [qgeom, List.map_map, List.chain'_iff_get]
  intro i h
  rw [List.length_map, List.length_range] at h
  simp only [List.get_eq_getElem, List.getElem_map, List.getElem_range,
    Function.comp_apply]
  push_cast
  rw [pow_succ]
  ring

lemma geom_vol_zero :
    calculateVolatility ((List.map Bar.close geomHist).drop
      ((List.map Bar.close geomHist).length - 20)) = 0 := by
  rw [geom_close_eq]
  refine calculateVolatility_chain_zero (q := (101 / 100 : ℝ))
    (geom_closes_chain.drop _) ?_ ?_
  · intro x hx
    have hx' := List.mem_of_mem_drop hx
    obtain ⟨q, hq, rfl⟩ := List.mem_map.1 hx'
    rw [qgeom] at hq
    obtain ⟨i, -, rfl⟩ := List.mem_map.1 hq
    positivity
  · rw [List.length_drop, List.length_map, qgeom, List.length_map, List.length_range]
    norm_num

lemma sentimentSignals_geom :
    sentimentSignals ((c59 : ℚ) : ℝ) geomHist 0 =
      (0.24, ["Bullish MA crossover", "Bullish EMA trend", "Overbought (RSI > 70)",
        "Bullish MACD crossover", "Overbought (Stochastic)", "Low volume warning"]) := by
  have hsma20 : calculateSMA ((List.map (Rat.cast : ℚ → ℝ) qgeom).drop
      ((List.map (Rat.cast : ℚ → ℝ) qgeom).length - 20)) =
      ((calculateSMA (qgeom.drop (qgeom.length - 20)) : ℚ) : ℝ) := by
    rw [List.length_map, ← List.map_drop, calculateSMA_ratCast]
  have hsma50 : calculateSMA ((List.map (Rat.cast : ℚ → ℝ) qgeom).drop
      ((List.map (Rat.cast : ℚ → ℝ) qgeom).length - 50)) =
      ((calculateSMA (qgeom.drop (qgeom.length - 50)) : ℚ) : ℝ) := by
    rw [List.length_map, ← List.map_drop, calculateSMA_ratCast]
  have hrsi : calculateRSI (List.map (Rat.cast : ℚ → ℝ) qgeom) 14 = (100 : ℝ) := by
    rw [calculateRSI_ratCast, qgeom_rsi]
    norm_num
  have hstoch : calculateStochastic (List.map (Rat.cast : ℚ → ℝ) qgeom)
      (List.map (Rat.cast : ℚ → ℝ) qgeom) (List.map (Rat.cast : ℚ → ℝ) qgeom) 14 =
      ⟨(100 : ℝ), 100⟩ := by
    rw [calculateStochastic_ratCast, qgeom_stoch]
    norm_num
  have havg : avgVolume20 geomHist = (100000 : ℝ) := by
    rw [avgVolume20, geom_volume_eq, List.length_replicate, List.drop_replicate]
    exact calculateSMA_replicate _ _ (by norm_num)
  have hma : (((c59 : ℚ) : ℝ) > calculateSMA ((List.map (Rat.cast : ℚ → ℝ) qgeom).drop
        ((List.map (Rat.cast : ℚ → ℝ) qgeom).length - 20)) ∧
      calculateSMA ((List.map (Rat.cast : ℚ → ℝ) qgeom).drop
        ((List.map (Rat.cast : ℚ → ℝ) qgeom).length - 20)) >
        calculateSMA ((List.map (Rat.cast : ℚ → ℝ) qgeom).drop
          ((List.map (Rat.cast : ℚ → ℝ) qgeom).length - 50))) := by
    rw [hsma20, hsma50]
    exact ⟨Rat.cast_lt.2 qgeom_ma.1, Rat.cast_lt.2 qgeom_ma.2⟩
  have hema : calculateEMA (List.map (Rat.cast : ℚ → ℝ) qgeom) 12 >
      calculateEMA (List.map (Rat.cast : ℚ → ℝ) qgeom) 26 := by
    rw [calculateEMA_ratCast, calculateEMA_ratCast]
    exact Rat.cast_lt.2 qgeom_ema
  have hmacd : (calculateMACD (List.map (Rat.cast : ℚ → ℝ) qgeom)).macd >
        (calculateMACD (List.map (Rat.cast : ℚ → ℝ) qgeom)).signal ∧
      (calculateMACD (List.map (Rat.cast : ℚ → ℝ) qgeom)).histogram > 0 := by
    rw [calculateMACD_ratCast]
    refine ⟨Rat.cast_lt.2 qgeom_macd.1, ?_⟩
    show (0 : ℝ) < (((calculateMACD qgeom).histogram : ℚ) : ℝ)
    exact_mod_cast qgeom_macd.2
  rw [sentimentSignals]
  simp only [geom_close_eq, geom_high_eq, geom_low_eq, hrsi, hstoch, geom_sr_empty,
    havg, geom_patterns_empty]
  rw [if_pos hma, if_pos hma, if_pos hema, if_pos hema, if_pos hmacd, if_pos hmacd]
  norm_num

lemma engine_geom_eval (rand : ℝ) :
    (calculateAdvancedPrediction rand ((c59 : ℚ) : ℝ) geomHist 0 0 30).trend =
        Trend.bullish ∧
      (calculateAdvancedPrediction rand ((c59 : ℚ) : ℝ) geomHist 0 0 30).predictedPrice =
        toFixed2 ((c59 : ℚ) : ℝ) := by
  have hlen : ¬ (geomHist.length < 50) := by
    rw [geomHist, List.length_map, qgeom, List.length_map, List.length_range]
    norm_num
  simp only [calculateAdvancedPrediction, if_neg hlen, sentimentSignals_geom,
    geom_vol_zero]
  refine ⟨by norm_num, ?_⟩
  have h1 : ((c59 : ℚ) : ℝ) * (1 + ((0.24 : ℝ) * 0 * Real.exp (-30 / 120) *
      (if (0 : ℝ) > 1000000000 then (0.8 : ℝ) else 1.2) + (rand - 0.5) * 0 * 0.2)) =
      ((c59 : ℚ) : ℝ) := by
    norm_num
  rw [h1]

/-- C8 (amended): on the canonical 60-bar rising history — flat bars whose
closes are `100 * 1.01^i`, constant volume, `currentPrice` equal to the last
close, and default volume/marketCap/horizon arguments — the sentiment score is
`0.24 > 0.1` (MA crossover +0.3, EMA trend +0.2, RSI = 100 gives overbought
-0.25, MACD +0.2, stochastic 100/100 gives overbought -0.15, then the low-volume
factor 0.8), so the trend is "bullish"; but because every period return is
exactly 1%, the 20-bar volatility is exactly 0, every price-change term
vanishes, and `predictedPrice` equals `currentPrice` rounded to 2 decimals —
which is NOT strictly greater than `currentPrice` (here it is strictly less). -/
theorem c8_rising_scenario (rand : ℝ) :
    ((List.map Bar.close geomHist).getLast?.getD 0 = ((c59 : ℚ) : ℝ)) ∧
      (calculateAdvancedPrediction rand ((c59 : ℚ) : ℝ) geomHist 0 0 30).trend =
        Trend.bullish ∧
      (calculateAdvancedPrediction rand ((c59 : ℚ) : ℝ) geomHist 0 0 30).predictedPrice =
        toFixed2 ((c59 : ℚ) : ℝ) := by
  refine ⟨?_, (engine_geom_eval rand).1, (engine_geom_eval rand).2⟩
  rw [geom_close_eq, getLastD_ratCast, qgeom_last]

/-- C8 counterexample: at the canonical rising history itself (closes
`100 * 1.01^i`, current price at the last close `100 * 1.01^59 ≈ 179.871`), the
predicted price is the current price rounded to 2 decimals, `179.87`, which is
strictly LESS than the current price — the claim `predictedPrice >
currentPrice` fails (volatility of the constant-return series is exactly 0). -/
theorem c8_counterexample :
    (calculateAdvancedPrediction (1 / 2) ((c59 : ℚ) : ℝ) geomHist 0 0
        30).predictedPrice < ((c59 : ℚ) : ℝ) := by
  rw [(engine_geom_eval (1 / 2)).2, toFixed2,
    show ((c59 : ℚ) : ℝ) * 100 = ((c59 * 100 : ℚ) : ℝ) by push_cast; ring,
    Rat.round_cast]
  exact_mod_cast c59_round_lt

end StockApi
